import Mathlib

/-
Verification of the job-orchestration, caching, checkpoint/resume and
scoring subsystem of the instagram-influencers-identification repository.

The defs below are shallow embeddings of:
  src/implementation/bab-4/main-2-engagement.py  (PostProcessor)
  src/backend/main.py                            (job registry, worker, websocket loop)
Machine floats are modelled as rationals where the code does exact-form
arithmetic, and as reals where the code applies the natural logarithm.
All line numbers in doc comments refer to those two files.
-/

/-- Job status values used by src/backend/main.py: the strings
"pending", "running", "completed", "failed", "cancelled". -/
inductive JobStatus where
  | pending
  | running
  | completed
  | failed
  | cancelled
deriving DecidableEq, Repr

/-- The terminal statuses per the spec state machine (section 4.2). -/
def JobStatus.isTerminal : JobStatus → Bool
  | .completed => true
  | .failed => true
  | .cancelled => true
  | _ => false

/-- One row of the posts dataframe loaded in process_posts (lines 415-423);
only the fields the resume logic consults are carried. -/
structure PostRow where
  post_id : Nat
  username : String
deriving DecidableEq, Repr

/-- One entry of the processed_posts list built by process_post
(lines 359-368); the resume logic consults only post_id. -/
structure ProcessedPost where
  post_id : Nat
  username : String
deriving DecidableEq, Repr

/-- One entry of the results list built in process_posts (lines 529-542),
with the fields filled in by the batch-level normalization pass
(lines 580-605) as Option fields, none while the key is absent. -/
structure ResultRec where
  post_id : Nat
  username : String
  log_engagement : Option ℚ
  coherence_weighted_similarity : ℚ
  direct_combined_similarity : ℚ
  normalized_engagement : Option ℚ
  final_coherence_score : Option ℚ
  final_direct_score : Option ℚ
deriving DecidableEq, Repr

/-- The checkpoint dictionary written by save_checkpoint (lines 155-160):
processed_posts, brand_values, weights, results. -/
structure Checkpoint where
  processed_posts : List ProcessedPost
  brand_values : String
  weights : ℚ × ℚ
  results : List ResultRec
deriving DecidableEq, Repr

/-- save_checkpoint (lines 147-165): when use_checkpoint is false the
function returns without writing (lines 149-151), leaving the durable
store unchanged; otherwise it replaces the store with the new snapshot. -/
def save_checkpoint (use_checkpoint : Bool) (store : Option Checkpoint)
    (processed_posts : List ProcessedPost) (brand_values : String)
    (weights : ℚ × ℚ) (results : List ResultRec) : Option Checkpoint :=
  if use_checkpoint then
    some ⟨processed_posts, brand_values, weights, results⟩
  else
    store

/-- load_checkpoint (lines 167-185): returns none when use_checkpoint is
false, else the stored checkpoint if one exists. -/
def load_checkpoint (use_checkpoint : Bool) (store : Option Checkpoint) :
    Option Checkpoint :=
  if use_checkpoint then store else none

/-- The checkpoint cleanup in PostProcessor.__init__ (lines 72-78): when
use_checkpoint is false and a checkpoint file exists, it is removed. -/
def initCheckpointCleanup (use_checkpoint : Bool) (store : Option Checkpoint) :
    Option Checkpoint :=
  if !use_checkpoint && store.isSome then none else store

/-- The resume block of process_posts (lines 435-449): load the checkpoint,
and when it exists with a nonempty processed_posts list, seed
processed_posts, seed results when the stored results list is nonempty,
and drop from the dataframe every row whose post_id is in the processed
set.  Note that the current brand_values and weights of the request are
not consulted at all: the stored parameters are never compared to them. -/
def resumeFromCheckpoint (ckpt : Option Checkpoint) (posts : List PostRow) :
    List ProcessedPost × List ResultRec × List PostRow :=
  match ckpt with
  | some ck =>
    if ck.processed_posts ≠ [] then
      let processed_posts := ck.processed_posts
      let results := if ck.results ≠ [] then ck.results else []
      let processed_post_ids := processed_posts.map (fun p => p.post_id)
      (processed_posts, results,
        posts.filter (fun row => decide (row.post_id ∉ processed_post_ids)))
    else ([], [], posts)
  | none => ([], [], posts)

/-- The weight derivation of run_processing_job (src/backend/main.py lines
332-334) and of main (main-2-engagement.py lines 652-655): the engagement
weight is one minus the content weight. -/
def mkWeights (content_weight : ℚ) : ℚ × ℚ :=
  (content_weight, 1 - content_weight)

/-- The content-weight validation of create_job (src/backend/main.py
line 487): the request is accepted only when 0 <= w <= 1. -/
def validContentWeight (w : ℚ) : Bool :=
  decide (0 ≤ w) && decide (w ≤ 1)

/-- Outcome of the process_posts call made at src/backend/main.py line 383:
it returns a dataframe (ok), returns None (noResults), or raises
(raised).  The worker branches on this at lines 392-434. -/
inductive POutcome where
  | ok
  | noResults
  | raised
deriving DecidableEq, Repr

/-- Shared state of one job as seen by the worker thread and the request
handlers: the status field of the jobs dictionary entry and the
threading.Event stop flag, plus a program counter locating the worker
inside run_processing_job. -/
structure BackendState where
  status : JobStatus
  stopFlag : Bool
  wpc : Nat
deriving DecidableEq, Repr

/-- One atomic step of the worker thread body run_processing_job
(src/backend/main.py lines 298-450), parameterized by whether the
PostProcessor constructor raises and by the outcome of process_posts.
Program counter map:
  0 = lines 310-314, the unconditional update of status to running;
  1 = line 318, first stop-flag check;
  2 = line 344, stop-flag check before model loading;
  3 = line 359, PostProcessor construction; on exception the outer
      handler at lines 436-447 sets status to failed with no stop-flag
      check;
  4 = line 366, stop-flag check before processing;
  5 = lines 383-434, process_posts and the completion branches
      (line 392 flag check, line 418 completed, line 429 failed,
      lines 402-413 exception path with its flag check);
  99 = worker finished. -/
def workerStep (initFails : Bool) (outcome : POutcome) (s : BackendState) :
    BackendState :=
  match s.wpc with
  | 0 => { s with status := .running, wpc := 1 }
  | 1 => if s.stopFlag then { s with status := .cancelled, wpc := 99 }
         else { s with wpc := 2 }
  | 2 => if s.stopFlag then { s with status := .cancelled, wpc := 99 }
         else { s with wpc := 3 }
  | 3 => if initFails then { s with status := .failed, wpc := 99 }
         else { s with wpc := 4 }
  | 4 => if s.stopFlag then { s with status := .cancelled, wpc := 99 }
         else { s with wpc := 5 }
  | 5 => if s.stopFlag then { s with status := .cancelled, wpc := 99 }
         else
           match outcome with
           | .ok => { s with status := .completed, wpc := 99 }
           | .noResults => { s with status := .failed, wpc := 99 }
           | .raised => { s with status := .failed, wpc := 99 }
  | _ => s

/-- The cancellation part of delete_job (src/backend/main.py lines
605-618): when the status is running or pending, set the stop flag and
eagerly set the status to cancelled; otherwise leave the job alone. -/
def deleteCancel (s : BackendState) : BackendState :=
  if s.status = .running ∨ s.status = .pending then
    { s with stopFlag := true, status := .cancelled }
  else s

/-- What one poll iteration of the websocket_logs loop decides to do with
the connection (src/backend/main.py lines 956-1043). -/
inductive WsAction where
  | sendFinalAndClose
  | closeNoFinal
  | keepOpen
deriving DecidableEq, Repr

/-- The connection-ending decisions of one iteration of the websocket_logs
polling loop: if the job was deleted, break with no final event (lines
959-961); if the status is completed or failed, send the final info event
and break (lines 1031-1039); otherwise keep polling.  The membership test
at line 1031 is over the two strings completed and failed only. -/
def wsLoopStep (jobExists : Bool) (status : JobStatus) : WsAction :=
  if !jobExists then .closeNoFinal
  else if status = .completed || status = .failed then .sendFinalAndClose
  else .keepOpen

/-- In-memory state of the per-item loop of process_posts relevant to the
cancellation safe point: the accumulated processed_posts and results
lists and the durable checkpoint store. -/
structure LoopState where
  processed_posts : List ProcessedPost
  results : List ResultRec
  checkpointStore : Option Checkpoint
deriving DecidableEq, Repr

/-- The stop-flag safe point at the start of every per-item iteration
(process_posts lines 461-469): when the flag is set, save a checkpoint of
the accumulated state provided processed_posts is nonempty, then exit
(result some = exited with this final state); when the flag is clear,
continue the loop (result none).  The checkpoint write itself goes
through save_checkpoint, which is a no-op when use_checkpoint is false
(lines 149-151). -/
def cancellationSafePoint (use_checkpoint : Bool) (stopSet : Bool)
    (brand_values : String) (weights : ℚ × ℚ) (st : LoopState) :
    Option LoopState :=
  if stopSet then
    some (if st.processed_posts ≠ [] then
      { st with checkpointStore := (save_checkpoint use_checkpoint
          st.checkpointStore st.processed_posts brand_values weights
          st.results) }
      else st)
  else none

/-- Dictionary lookup for the embedding caches; the Python dicts are
modelled as association lists where an assignment prepends, so lookup
finds the most recent binding. -/
def cacheLookup {α β : Type} [DecidableEq α] :
    List (α × β) → α → Option β
  | [], _ => none
  | (k, v) :: rest, k2 => if k = k2 then some v else cacheLookup rest k2

/-- The lookup-or-compute body shared by get_image_embedding (lines
187-207) and get_caption_embedding (lines 209-228): when the key is
present and use_cache is true, return the cached value without calling
the model; otherwise call the oracle, and on success store the value and
return it, while on failure return none without storing anything.  The
third component records whether the oracle was invoked. -/
def cacheGet {α β : Type} [DecidableEq α] (use_cache : Bool)
    (oracle : α → Option β) (cache : List (α × β)) (k : α) :
    Option β × List (α × β) × Bool :=
  if (cacheLookup cache k).isSome && use_cache then
    (cacheLookup cache k, cache, false)
  else
    match oracle k with
    | some v => (some v, (k, v) :: cache, true)
    | none => (none, cache, true)

/-- The engagement-rate computation of process_posts (lines 517-526): the
rate is defined only when likes, comments and followers are all present
and followers is positive, and then equals (likes+comments)/followers
times 100. -/
def computeEngagementRate :
    Option ℤ → Option ℤ → Option ℤ → Option ℚ
  | some likes, some comments, some followers =>
    if 0 < followers then
      some (((likes : ℚ) + (comments : ℚ)) / (followers : ℚ) * 100)
    else none
  | _, _, _ => none

/-- The log transformation applied to a defined engagement rate at line
523 of process_posts: the natural logarithm of one plus the rate. -/
noncomputable def logTransform (rate : ℚ) : ℝ :=
  Real.log (1 + (rate : ℝ))

/-- The batch-level normalization pass of process_posts (lines 580-606).
log_rates is the list of log-transformed engagement values collected
during the loop (lines 455-456 and 525-526).  When it is empty the whole
pass is skipped — the guard at line 581 — and no record receives final
scores.  Otherwise every record with a defined log_engagement gets a
min-max normalized engagement (0.5 when the range is zero) and weighted
final scores, and every record without one gets no normalized value and
its content-only similarities as final scores. -/
def finalizeScores (log_rates : List ℚ) (w1 w2 : ℚ)
    (results : List ResultRec) : List ResultRec :=
  match log_rates with
  | [] => results
  | l0 :: rest =>
    let min_log := rest.foldl min l0
    let max_log := rest.foldl max l0
    let log_range := max_log - min_log
    results.map (fun r =>
      match r.log_engagement with
      | some le =>
        let ne := if log_range > 0 then (le - min_log) / log_range
                  else (1 : ℚ) / 2
        { r with normalized_engagement := (some ne),
                 final_coherence_score :=
                   (some (w1 * r.coherence_weighted_similarity + w2 * ne)),
                 final_direct_score :=
                   (some (w1 * r.direct_combined_similarity + w2 * ne)) }
      | none =>
        { r with normalized_engagement := (none : Option ℚ),
                 final_coherence_score :=
                   (some r.coherence_weighted_similarity),
                 final_direct_score :=
                   (some r.direct_combined_similarity) })

/-- Sample result record with no engagement data, as produced at lines
529-542 for a post whose followers data is missing. -/
def sampleResult : ResultRec :=
  ⟨1, "u1", none, 1/2, 1/3, none, none, none⟩

/-- Sample checkpoint written by a run with brand text
"adventure explore" and weights (7/10, 3/10), holding one processed
post. -/
def sampleCheckpoint : Checkpoint :=
  ⟨[⟨1, "u1"⟩], "adventure explore", (7/10, 3/10), [sampleResult]⟩

/-- Sample two-row posts dataframe whose first row is the post already in
sampleCheckpoint. -/
def samplePosts : List PostRow :=
  [⟨1, "u1"⟩, ⟨2, "u2"⟩]

/-- Sample per-item loop state after one completed item and before any
checkpoint write. -/
def sampleLoopState : LoopState :=
  ⟨[⟨1, "u1"⟩], [sampleResult], none⟩

/-- A result record carrying a given log-transformed engagement value and
zero similarity sub-scores, used to instantiate the normalization pass. -/
def logRec (le : ℚ) : ResultRec :=
  ⟨0, "u", some le, 0, 0, none, none, none⟩

/- ===================== C9 ===================== -/

/-- C9: for every created job (content weight accepted by the create_job
validation), the weights tuple handed to the pipeline has the requested
content weight as its first component and the two components sum to 1. -/
theorem weights_sum_to_one (w : ℚ) (_hw : validContentWeight w = true) :
    (mkWeights w).1 = w ∧ (mkWeights w).1 + (mkWeights w).2 = 1 := by
  constructor
  · rfl
  · show w + (1 - w) = 1
    ring

/-- Witness for weights_sum_to_one at content weight 7/10. -/
theorem weights_sum_to_one_witness :
    validContentWeight (7/10) = true ∧
      ((mkWeights (7/10)).1 = 7/10 ∧
        (mkWeights (7/10)).1 + (mkWeights (7/10)).2 = 1) :=
  ⟨by norm_num [validContentWeight],
    weights_sum_to_one (7/10) (by norm_num [validContentWeight])⟩

/- ===================== C10 ===================== -/

/-- C10: constructing the processor with checkpointing disabled removes any
existing checkpoint from disk during initialization, even though such a
run never reads a checkpoint (load_checkpoint returns none for it), so a
prior interrupted run stored checkpoint does not survive. -/
theorem init_disabled_deletes_checkpoint (store : Option Checkpoint) :
    initCheckpointCleanup false store = none ∧
      load_checkpoint false store = none := by
  constructor
  · cases store <;> rfl
  · rfl

/- ===================== C2 ===================== -/

/-- C2 (code bug): a job cancelled while still pending reaches the
terminal status cancelled, and the very next worker step moves it to
running, because the update at lines 310-314 is unconditional and
precedes the first stop-flag check; likewise, a job cancelled after the
line 344 check but whose PostProcessor construction raises is moved from
cancelled to failed by the outer handler at lines 436-447, which does not
consult the stop flag.  Both traces contradict the spec sentence that
terminal states never change once set. -/
theorem terminal_status_overwritten :
    (let s0 : BackendState := ⟨.pending, false, 0⟩
     let s1 := deleteCancel s0
     let s2 := workerStep false .ok s1
     s1.status = .cancelled ∧ s1.status.isTerminal = true ∧
       s2.status = .running ∧ s2.status ≠ .cancelled) ∧
    (let t0 : BackendState := ⟨.pending, false, 0⟩
     let t1 := workerStep true .ok t0
     let t2 := workerStep true .ok t1
     let t3 := workerStep true .ok t2
     let t4 := deleteCancel t3
     let t5 := workerStep true .ok t4
     t3.wpc = 3 ∧ t4.status = .cancelled ∧ t4.status.isTerminal = true ∧
       t5.status = .failed ∧ t5.status ≠ .cancelled) := by
  decide

/- ===================== C3 ===================== -/

/-- C3 counterexample: cancelled is a terminal status, yet an iteration
observing a cancelled job neither sends a final event nor closes while
the job still exists, and once the job is deleted the loop closes without
sending a final event; so the claim that every terminal state leads to a
final event followed by closing is false for cancelled. -/
theorem cancelled_gets_no_final_event :
    JobStatus.cancelled.isTerminal = true ∧
      wsLoopStep true .cancelled = .keepOpen ∧
      wsLoopStep true .cancelled ≠ .sendFinalAndClose ∧
      wsLoopStep false .cancelled = .closeNoFinal := by
  decide

/-- C3 amended: the channel sends a final event and closes exactly when
the observed status is completed or failed; for a cancelled job the loop
keeps polling while the job exists and, after the job is deleted, closes
without a final event. -/
theorem final_event_iff_completed_or_failed (s : JobStatus) :
    (wsLoopStep true s = .sendFinalAndClose ↔ s = .completed ∨ s = .failed) ∧
      wsLoopStep false s = .closeNoFinal := by
  cases s <;> simp [wsLoopStep]

/- ===================== C1 ===================== -/

/-- C1 (code bug): the resume logic never compares the stored brand_values
or weights to the current request, so a checkpoint whose stored
parameters differ from the request is still fully reused: its
processed_posts seed the run, its results seed the accumulator, and its
already-processed item is removed from the dataframe.  Evaluated at
sampleCheckpoint, written for brand text "adventure explore", while the
current request carries a different brand text. -/
theorem mismatched_checkpoint_reused :
    sampleCheckpoint.brand_values ≠ "minimal interior design" ∧
      sampleCheckpoint.processed_posts ≠ [] ∧
      sampleCheckpoint.results ≠ [] ∧
      (resumeFromCheckpoint (some sampleCheckpoint) samplePosts).1
          = sampleCheckpoint.processed_posts ∧
      (resumeFromCheckpoint (some sampleCheckpoint) samplePosts).2.1
          = sampleCheckpoint.results ∧
      (resumeFromCheckpoint (some sampleCheckpoint) samplePosts).2.2
          = [⟨2, "u2"⟩] := by
  refine ⟨?_, ?_, ?_, rfl, rfl, rfl⟩ <;> simp [sampleCheckpoint]

/- ===================== C5 ===================== -/

/-- C5: resuming from a checkpoint whose stored parameters equal those of
the current request (and whose processed set is nonempty, which holds for
every checkpoint the code writes) seeds processed_posts and results from
it and removes every row whose post_id is in the processed set, so no
item in that set is ever reprocessed. -/
theorem matching_checkpoint_skips_and_seeds (ck : Checkpoint)
    (posts : List PostRow) (reqBrand : String) (reqWeights : ℚ × ℚ)
    (_hb : ck.brand_values = reqBrand) (_hw : ck.weights = reqWeights)
    (hne : ck.processed_posts ≠ []) :
    (resumeFromCheckpoint (some ck) posts).1 = ck.processed_posts ∧
      (resumeFromCheckpoint (some ck) posts).2.1 = ck.results ∧
      ∀ p ∈ ck.processed_posts,
        ∀ row ∈ (resumeFromCheckpoint (some ck) posts).2.2,
          row.post_id ≠ p.post_id := by
  unfold resumeFromCheckpoint
  simp only [if_pos hne]
  refine ⟨trivial, ?_, ?_⟩
  · by_cases hr : ck.results = []
    · simp [hr]
    · simp [hr]
  · intro p hp row hrow
    simp only [List.mem_filter, decide_eq_true_eq] at hrow
    intro hEq
    exact hrow.2 (hEq ▸ List.mem_map_of_mem (fun q => q.post_id) hp)

/-- Witness for matching_checkpoint_skips_and_seeds at sampleCheckpoint
and samplePosts, with the request carrying the same stored parameters. -/
theorem matching_checkpoint_skips_and_seeds_witness :
    (resumeFromCheckpoint (some sampleCheckpoint) samplePosts).1
        = sampleCheckpoint.processed_posts ∧
      (resumeFromCheckpoint (some sampleCheckpoint) samplePosts).2.1
          = sampleCheckpoint.results ∧
      ∀ p ∈ sampleCheckpoint.processed_posts,
        ∀ row ∈ (resumeFromCheckpoint (some sampleCheckpoint) samplePosts).2.2,
          row.post_id ≠ p.post_id :=
  matching_checkpoint_skips_and_seeds sampleCheckpoint samplePosts
    "adventure explore" (7/10, 3/10) rfl rfl (by simp [sampleCheckpoint])

/- ===================== C8 ===================== -/

/-- C8 counterexample: with checkpointing disabled, the worker that
observes the cancellation flag after completing one item exits without
persisting anything — the durable checkpoint store stays empty, so the
finished work of that run is lost; the claim as stated, which does not
restrict itself to checkpointing-enabled runs, is false. -/
theorem cancel_with_checkpointing_disabled_persists_nothing :
    cancellationSafePoint false true "adventure explore" (7/10, 3/10)
        sampleLoopState = some sampleLoopState ∧
      sampleLoopState.checkpointStore = none ∧
      sampleLoopState.processed_posts ≠ [] := by
  refine ⟨rfl, rfl, by simp [sampleLoopState]⟩

/-- C8 amended: with checkpointing enabled, whenever the worker observes
the cancellation flag at the per-item safe point after completing at
least one item, it exits having replaced the durable checkpoint with a
snapshot of exactly the accumulated processed items, the run parameters
and the accumulated intermediate results. -/
theorem cancel_persists_all_completed_items (st : LoopState)
    (brand_values : String) (weights : ℚ × ℚ)
    (hne : st.processed_posts ≠ []) :
    cancellationSafePoint true true brand_values weights st
      = some { st with checkpointStore :=
          (some ⟨st.processed_posts, brand_values, weights, st.results⟩) } := by
  unfold cancellationSafePoint save_checkpoint
  simp [hne]

/-- Witness for cancel_persists_all_completed_items at sampleLoopState. -/
theorem cancel_persists_all_completed_items_witness :
    cancellationSafePoint true true "adventure explore" (7/10, 3/10)
        sampleLoopState
      = some { sampleLoopState with checkpointStore :=
          (some ⟨sampleLoopState.processed_posts, "adventure explore",
            (7/10, 3/10), sampleLoopState.results⟩) } :=
  cancel_persists_all_completed_items sampleLoopState "adventure explore"
    (7/10, 3/10) (by simp [sampleLoopState])

/- ===================== C7 ===================== -/

/-- C7 counterexample: when the oracle fails on the first call, nothing is
cached, so the second call with the same key invokes the oracle again —
the claim that the second call never invokes the oracle is false (the two
returned values are still equal, both none). -/
theorem failed_oracle_is_invoked_again :
    (cacheGet true (fun _ : Nat => (none : Option (List ℚ)))
        (cacheGet true (fun _ : Nat => (none : Option (List ℚ))) [] 0).2.1
        0).2.2 = true ∧
      (cacheGet true (fun _ : Nat => (none : Option (List ℚ))) [] 0).2.2
        = true ∧
      (cacheGet true (fun _ : Nat => (none : Option (List ℚ)))
          (cacheGet true (fun _ : Nat => (none : Option (List ℚ))) [] 0).2.1
          0).1
        = (cacheGet true (fun _ : Nat => (none : Option (List ℚ))) [] 0).1 :=
  ⟨rfl, rfl, rfl⟩

/-- C7 amended: with caching enabled and a deterministic oracle, two
sequential calls with the same key return equal values, and whenever the
first call returns a value, the second call does not invoke the oracle
and returns that stored value. -/
theorem cache_get_idempotent {α β : Type} [DecidableEq α]
    (oracle : α → Option β) (cache : List (α × β)) (k : α) :
    (cacheGet true oracle (cacheGet true oracle cache k).2.1 k).1
        = (cacheGet true oracle cache k).1 ∧
      ((cacheGet true oracle cache k).1.isSome = true →
        (cacheGet true oracle (cacheGet true oracle cache k).2.1 k).2.2
          = false) := by
  unfold cacheGet
  cases h : cacheLookup cache k with
  | some v => simp [h]
  | none =>
    cases h2 : oracle k with
    | some v => simp [h, h2, cacheLookup]
    | none => simp [h, h2]

/-- Witness for cache_get_idempotent with an oracle that succeeds on the
key, discharging the isSome hypothesis of the second conjunct. -/
theorem cache_get_idempotent_witness :
    (cacheGet true (fun _ : Nat => some [(1 : ℚ)])
        (cacheGet true (fun _ : Nat => some [(1 : ℚ)]) [] 0).2.1 0).1
        = (cacheGet true (fun _ : Nat => some [(1 : ℚ)]) [] 0).1 ∧
      ((cacheGet true (fun _ : Nat => some [(1 : ℚ)]) [] 0).1.isSome = true →
        (cacheGet true (fun _ : Nat => some [(1 : ℚ)])
            (cacheGet true (fun _ : Nat => some [(1 : ℚ)]) [] 0).2.1 0).2.2
          = false) :=
  cache_get_idempotent (fun _ => some [(1 : ℚ)]) [] 0

/- ===================== C4 ===================== -/

/-- C4 counterexample: in a batch in which no item has a defined
engagement rate, the collected log-rate list is empty, so the entire
normalization pass — including its else branch that copies the
content-only similarities into the final scores — is skipped by the guard
at line 581: the record keeps no final scores at all, and in particular
its final scores do not equal its content-only similarity scores, so the
claim as stated is false for such a batch. -/
theorem all_undefined_batch_gets_no_final_scores :
    [sampleResult].filterMap (fun r => r.log_engagement) = [] ∧
      finalizeScores ([sampleResult].filterMap (fun r => r.log_engagement))
          (7/10) (3/10) [sampleResult] = [sampleResult] ∧
      sampleResult.log_engagement = none ∧
      sampleResult.final_coherence_score = none ∧
      sampleResult.final_coherence_score
          ≠ some sampleResult.coherence_weighted_similarity ∧
      sampleResult.final_direct_score
          ≠ some sampleResult.direct_combined_similarity := by
  refine ⟨rfl, rfl, rfl, rfl, ?_, ?_⟩ <;> simp [sampleResult]

/-- C4 amended: in a batch with at least one defined engagement rate,
every item without one receives no normalized engagement value and both
of its final weighted scores equal its content-only similarity scores
(the engagement weight is dropped, not zero-filled); but in a batch in
which no item has a defined rate the normalization pass is skipped
entirely and no item receives final scores. -/
theorem undefined_engagement_content_only (log_rates : List ℚ) (w1 w2 : ℚ)
    (results : List ResultRec)
    (_hlog : log_rates = results.filterMap (fun r => r.log_engagement)) :
    (log_rates = [] → finalizeScores log_rates w1 w2 results = results) ∧
      (log_rates ≠ [] → ∀ r ∈ finalizeScores log_rates w1 w2 results,
        r.log_engagement = none →
          r.normalized_engagement = none ∧
          r.final_coherence_score = some r.coherence_weighted_similarity ∧
          r.final_direct_score = some r.direct_combined_similarity) := by
  constructor
  · intro h
    subst h
    rfl
  · intro hne r hr hnone
    cases hrates : log_rates with
    | nil => exact absurd hrates hne
    | cons l0 rest =>
      subst hrates
      simp only [finalizeScores, List.mem_map] at hr
      obtain ⟨a, _ha, rfl⟩ := hr
      cases hle : a.log_engagement with
      | some le => simp [hle] at hnone
      | none => simp [hle]

/-- Witness for undefined_engagement_content_only on a two-item batch
whose first item has log-engagement 2 and whose second has none. -/
theorem undefined_engagement_content_only_witness :
    (([2] : List ℚ)
        = [logRec 2, sampleResult].filterMap (fun r => r.log_engagement)) ∧
      ((([2] : List ℚ) = [] →
          finalizeScores [2] (7/10) (3/10) [logRec 2, sampleResult]
            = [logRec 2, sampleResult]) ∧
        (([2] : List ℚ) ≠ [] →
          ∀ r ∈ finalizeScores [2] (7/10) (3/10) [logRec 2, sampleResult],
            r.log_engagement = none →
              r.normalized_engagement = none ∧
              r.final_coherence_score
                  = some r.coherence_weighted_similarity ∧
              r.final_direct_score
                  = some r.direct_combined_similarity)) :=
  ⟨rfl, undefined_engagement_content_only [2] (7/10) (3/10)
    [logRec 2, sampleResult] rfl⟩

/- ===================== C6 ===================== -/

/-- C6: for an item with likes, comments and followers all present and
followers positive, the engagement rate equals (likes+comments)/followers
times 100 and the log transformation is ln of one plus the rate; and the
min-max normalization over log-engagement values 0, 1, 2 yields
normalized values 0, 1/2, 1. -/
theorem engagement_rate_and_minmax_normalization
    (likes comments followers : ℤ) (hf : 0 < followers) :
    computeEngagementRate (some likes) (some comments) (some followers)
        = some (((likes : ℚ) + (comments : ℚ)) / (followers : ℚ) * 100) ∧
      logTransform (((likes : ℚ) + (comments : ℚ)) / (followers : ℚ) * 100)
        = Real.log (1 + ((((likes : ℚ) + (comments : ℚ)) / (followers : ℚ)
            * 100 : ℚ) : ℝ)) ∧
      (finalizeScores [0, 1, 2] (7/10) (3/10)
            [logRec 0, logRec 1, logRec 2]).map
          (fun r => r.normalized_engagement)
        = [some 0, some (1/2), some 1] := by
  refine ⟨?_, rfl, ?_⟩
  · simp [computeEngagementRate, hf]
  · norm_num [finalizeScores, logRec, List.foldl]

/-- Witness for engagement_rate_and_minmax_normalization at a post with
30 likes, 20 comments and 1000 followers. -/
theorem engagement_rate_and_minmax_normalization_witness :
    (0 : ℤ) < 1000 ∧
      (computeEngagementRate (some 30) (some 20) (some 1000)
          = some (((30 : ℚ) + (20 : ℚ)) / (1000 : ℚ) * 100) ∧
        logTransform (((30 : ℚ) + (20 : ℚ)) / (1000 : ℚ) * 100)
          = Real.log (1 + ((((30 : ℚ) + (20 : ℚ)) / (1000 : ℚ)
              * 100 : ℚ) : ℝ)) ∧
        (finalizeScores [0, 1, 2] (7/10) (3/10)
              [logRec 0, logRec 1, logRec 2]).map
            (fun r => r.normalized_engagement)
          = [some 0, some (1/2), some 1]) :=
  ⟨by norm_num,
    engagement_rate_and_minmax_normalization 30 20 1000 (by norm_num)⟩
